import Mathlib

/-!
Shallow embedding of `game_app.py`, the room registry and synchronization
core of a two-player rock-paper-scissors coordinator.  Each definition
mirrors one piece of the Python source; theorems settle the specification
claims about seat assignment, move resolution, eviction, idempotent move
submission, round reset, and the occupancy invariant.
-/

namespace GameApp

/-- A move, one of the three string literals `"Rock"`, `"Paper"`,
`"Scissors"` written by the move buttons (lines 119-138). -/
inductive Move
  | rock
  | paper
  | scissors
deriving DecidableEq, Repr, Fintype

/-- A seat, one of the two values `"Player 1"`, `"Player 2"` stored in
`st.session_state.my_role` (lines 82, 85). -/
inductive Seat
  | player1
  | player2
deriving DecidableEq, Repr, Fintype

/-- The three outcomes rendered by the winner logic (lines 153-163):
the tie message, the win message, the lose message. -/
inductive Outcome
  | tie
  | win
  | lose
deriving DecidableEq, Repr

/-- The winner logic of lines 152-163: `my_move == opp_move` is a tie;
the three listed pairs `(Rock,Scissors)`, `(Paper,Rock)`,
`(Scissors,Paper)` are a win for the first argument; everything else is
the `else` branch, a loss. -/
def resolve (mine theirs : Move) : Outcome :=
  if mine = theirs then Outcome.tie
  else if (mine = Move.rock ∧ theirs = Move.scissors)
       ∨ (mine = Move.paper ∧ theirs = Move.rock)
       ∨ (mine = Move.scissors ∧ theirs = Move.paper) then Outcome.win
  else Outcome.lose

/-- One room record, the dictionary built at lines 65-70:
`player1_move`, `player2_move` (absent = Python `None`), `count`,
`last_active`.  Timestamps are integers standing for `time.time()`
values. -/
structure Room where
  player1_move : Option Move
  player2_move : Option Move
  count : Nat
  last_active : Int
deriving DecidableEq, Repr

/-- The fresh room written on a registry miss (lines 64-70): both moves
`None`, `count = 0`, `last_active` stamped with the creation time. -/
def newRoom (now : Int) : Room :=
  ⟨none, none, 0, now⟩

/-- The shared registry `games`: a finite mapping from room name to room,
embedded as an association list. -/
abbrev Registry : Type :=
  List (String × Room)

/-- Read access, the `room in games` test and the `games[room]` lookup. -/
def lookupRoom (games : Registry) (name : String) : Option Room :=
  (List.find? (fun p => p.1 = name) games).map (fun p => p.2)

/-- Dictionary assignment `games[room] = r`: overwrite the entry if the
key is present, otherwise add it. -/
def setRoom (games : Registry) (name : String) (r : Room) : Registry :=
  match games with
  | [] => [(name, r)]
  | p :: rest =>
      if p.1 = name then (name, r) :: rest else p :: setRoom rest name r

/-- Lines 30-47, `cleanup_old_rooms`: collect every room with
`current_time - last_active > ttl_seconds` and delete it; the rooms that
remain are exactly those failing that test.  `now` stands for the
`time.time()` read at line 35. -/
def cleanup_old_rooms (games : Registry) (now ttl : Int) : Registry :=
  List.filter (fun p => decide (¬ now - p.2.last_active > ttl)) games

/-- The default `ttl_seconds=300` of line 30. -/
def ttlDefault : Int := 300

/-- The value the Python call `cleanup_old_rooms(games)` evaluates to:
the function body has no `return` statement, so it returns `None`
(embedded as `none`); a `return n` statement would be `some n`. -/
def cleanup_old_rooms_return (games : Registry) (now ttl : Int) : Option Nat :=
  none

/-- The number of rooms a sweep deletes, as described by the spec
contract `sweep(registry, now, ttl) -> count removed`. -/
def removedCount (games : Registry) (now ttl : Int) : Nat :=
  games.length - (cleanup_old_rooms games now ttl).length

/-- The failure reported at line 88 when both seats are taken: the
message that the room is full, after which the script stops. -/
inductive JoinError
  | roomFull
deriving DecidableEq, Repr

/-- Lines 79-89, the body of the `with lock:` block, acting on one room
for a not-yet-seated caller: read `count`; on 0 assign Player 1 and
write `count = 1`; on 1 assign Player 2 and write `count = 2`; otherwise
report the room as full and stop, assigning no seat. -/
def assign (r : Room) : Except JoinError (Seat × Room) :=
  if r.count = 0 then
    Except.ok (Seat.player1, { r with count := 1 })
  else if r.count = 1 then
    Except.ok (Seat.player2, { r with count := 2 })
  else
    Except.error JoinError.roomFull

/-- Lines 107-112: which move field belongs to a seat (`my_move`
selection). -/
def seatMove (r : Room) : Seat → Option Move
  | Seat.player1 => r.player1_move
  | Seat.player2 => r.player2_move

/-- One move-button interaction (lines 114-138).  The buttons are
rendered only under `if my_move is None:`, so a click writes the move of that seat exactly when that seat has not moved; for an already-moved seat the
run takes the `else` branch (line 141) and writes nothing. -/
def submitMove (r : Room) (s : Seat) (m : Move) : Room :=
  match s with
  | Seat.player1 =>
      if r.player1_move = none then { r with player1_move := some m } else r
  | Seat.player2 =>
      if r.player2_move = none then { r with player2_move := some m } else r

/-- The Play Again reset (lines 166-168): write `None` into both move
fields; `count` and `last_active` are not touched by these lines. -/
def playAgain (r : Room) : Room :=
  { r with player1_move := none, player2_move := none }

/-- The state that one script run of a caller reads and writes: the
`st.session_state.my_role` of that caller (absent until first seating) together with
the shared `games` registry. -/
structure AppState where
  session_role : Option Seat
  games : Registry
deriving DecidableEq, Repr

/-- Lines 63-70: if the named room is absent from `games`, create it
fresh; otherwise leave the registry as it is. -/
def ensureRoom (games : Registry) (name : String) (now : Int) : Registry :=
  if (lookupRoom games name).isSome then games
  else setRoom games name (newRoom now)

/-- Line 73: `games[room]["last_active"] = time.time()` (the room is
present, having just been ensured). -/
def touchRoom (games : Registry) (name : String) (now : Int) : Registry :=
  match lookupRoom games name with
  | some r => setRoom games name { r with last_active := now }
  | none => games

/-- Lines 63-90 of one script run for a caller who has already typed a
non-empty room name: ensure the room exists (lines 64-70), refresh its
`last_active` (line 73), then run seat assignment (lines 77-90) only
when `"my_role" not in st.session_state`; a caller holding a remembered
seat skips the whole `if` body.  On `RoomFull` the script stops with the
role still unassigned. -/
def pageRun (st : AppState) (name : String) (now : Int) : AppState :=
  let games2 := touchRoom (ensureRoom st.games name now) name now
  match st.session_role with
  | some role => ⟨some role, games2⟩
  | none =>
      match lookupRoom games2 name with
      | some r =>
          match assign r with
          | Except.ok (seat, r2) => ⟨some seat, setRoom games2 name r2⟩
          | Except.error _ => ⟨none, games2⟩
      | none => ⟨none, games2⟩

/-- The places in `game_app.py` that mutate the shared registry or a
room inside it, one constructor per site. -/
inductive MutationSite
  | evictionSweep
  | roomCreation
  | touchLastActive
  | seatAssignment
  | moveWrite
  | playAgainReset
deriving DecidableEq, Repr

/-- Whether each mutation site executes inside the `with lock:` block
(lines 78-90), read off the source: the eviction call `cleanup_old_rooms
(games)` at line 52, the room creation at lines 64-70, the `last_active`
write at line 73, the move writes at lines 119-138 and the Play Again
reset at lines 166-168 all run with the lock never acquired; only the
seat-assignment block at lines 79-89 sits inside `with lock:`. -/
def insideLock : MutationSite → Bool
  | MutationSite.seatAssignment => true
  | MutationSite.evictionSweep => false
  | MutationSite.roomCreation => false
  | MutationSite.touchLastActive => false
  | MutationSite.moveWrite => false
  | MutationSite.playAgainReset => false

/-- The operations that mutate one existing room over its life: a seat
assignment attempt (lines 77-90, a no-op on `RoomFull`), a move
submission (lines 114-138), the Play Again reset (lines 166-168) and
the `last_active` refresh (line 73). -/
inductive RoomOp
  | join
  | submit (s : Seat) (m : Move)
  | reset
  | touch (t : Int)
deriving DecidableEq, Repr

/-- One room-level operation applied to a room. -/
def stepRoom (r : Room) : RoomOp → Room
  | RoomOp.join =>
      match assign r with
      | Except.ok (_, r2) => r2
      | Except.error _ => r
  | RoomOp.submit s m => submitMove r s m
  | RoomOp.reset => playAgain r
  | RoomOp.touch t => { r with last_active := t }

/-- A sequence of room-level operations applied in order. -/
def runOps (r : Room) (ops : List RoomOp) : Room :=
  List.foldl stepRoom r ops

/-- The Play Again click as one caller observes it: lines 166-168 write
`None` into the two move fields of `games[room]` (the room is present,
the button only renders inside an active game); nothing is written to
`st.session_state`, so the remembered seat identity persists. -/
def playAgainClick (st : AppState) (name : String) : AppState :=
  match lookupRoom st.games name with
  | some r => ⟨st.session_role, setRoom st.games name (playAgain r)⟩
  | none => st

/-- C3: the outcome resolution is a total function on the nine pairs of
moves: equal moves tie; (Rock,Scissors), (Paper,Rock), (Scissors,Paper)
are a win for the first argument; the remaining three unequal pairs are
a loss. -/
theorem resolve_total_table :
    (∀ m : Move, resolve m m = Outcome.tie) ∧
    resolve Move.rock Move.scissors = Outcome.win ∧
    resolve Move.paper Move.rock = Outcome.win ∧
    resolve Move.scissors Move.paper = Outcome.win ∧
    resolve Move.scissors Move.rock = Outcome.lose ∧
    resolve Move.rock Move.paper = Outcome.lose ∧
    resolve Move.paper Move.scissors = Outcome.lose := by
  decide

/-- C9: the outcome resolution is anti-symmetric: for distinct moves a
and b, resolving (a, b) is a win exactly when resolving (b, a) is a
loss. -/
theorem resolve_antisymm (a b : Move) (hab : a ≠ b) :
    resolve a b = Outcome.win ↔ resolve b a = Outcome.lose := by
  revert hab
  revert b
  revert a
  decide

/-- Witness for C9 at the concrete pair (Rock, Scissors). -/
theorem resolve_antisymm_witness :
    Move.rock ≠ Move.scissors ∧
    (resolve Move.rock Move.scissors = Outcome.win ↔
      resolve Move.scissors Move.rock = Outcome.lose) :=
  ⟨by decide, resolve_antisymm Move.rock Move.scissors (by decide)⟩

/-- C2: seat assignment reads the occupancy count: on 0 the caller
becomes Player 1 and the count becomes 1; on 1 the caller becomes
Player 2 and the count becomes 2; otherwise the call fails with the
room-full error and the room is left untouched.  Consequently three
successive joins on a fresh room yield Player 1, Player 2, and the
room-full failure. -/
theorem assign_seats_in_order (r : Room) :
    (r.count = 0 → assign r = Except.ok (Seat.player1, { r with count := 1 })) ∧
    (r.count = 1 → assign r = Except.ok (Seat.player2, { r with count := 2 })) ∧
    (r.count ≠ 0 → r.count ≠ 1 → assign r = Except.error JoinError.roomFull) ∧
    (∀ t : Int,
      assign (newRoom t) = Except.ok (Seat.player1, { newRoom t with count := 1 }) ∧
      assign { newRoom t with count := 1 } =
        Except.ok (Seat.player2, { newRoom t with count := 2 }) ∧
      assign { newRoom t with count := 2 } = Except.error JoinError.roomFull) := by
  refine ⟨fun h0 => ?_, fun h1 => ?_, fun h0 h1 => ?_, fun t => ⟨?_, ?_, ?_⟩⟩ <;>
    simp [assign, newRoom, *]

/-- Witness for C2: the three successive joins on a concrete fresh room. -/
theorem assign_seats_in_order_witness :
    assign (newRoom 0) = Except.ok (Seat.player1, { newRoom 0 with count := 1 }) ∧
    assign { newRoom 0 with count := 1 } =
      Except.ok (Seat.player2, { newRoom 0 with count := 2 }) ∧
    assign { newRoom 0 with count := 2 } = Except.error JoinError.roomFull :=
  ⟨(assign_seats_in_order (newRoom 0)).1 rfl,
   (assign_seats_in_order { newRoom 0 with count := 1 }).2.1 rfl,
   (assign_seats_in_order { newRoom 0 with count := 2 }).2.2.1
     (by decide) (by decide)⟩

/-- C6: submitting a move for a seat whose move is already recorded is a
silently-ignored no-op: the whole room, the recorded move included, is
unchanged. -/
theorem submitMove_noop_when_moved (r : Room) (s : Seat) (m prev : Move)
    (h : seatMove r s = some prev) :
    submitMove r s m = r := by
  cases s <;> simp only [seatMove] at h <;> simp [submitMove, h]

/-- Witness for C6: a second submission on a seat that already holds
Rock changes nothing. -/
theorem submitMove_noop_when_moved_witness :
    seatMove ⟨some Move.rock, none, 2, 5⟩ Seat.player1 = some Move.rock ∧
    submitMove ⟨some Move.rock, none, 2, 5⟩ Seat.player1 Move.paper =
      ⟨some Move.rock, none, 2, 5⟩ :=
  ⟨rfl, submitMove_noop_when_moved ⟨some Move.rock, none, 2, 5⟩
    Seat.player1 Move.paper Move.rock rfl⟩

/-- C1 evidence: only the seat-assignment block executes inside the
`with lock:` critical section; the eviction sweep, the lazy room
creation, the `last_active` touch, the move writes, and the Play Again
reset all mutate the shared registry with the lock never held. -/
theorem lock_covers_only_seat_assignment :
    insideLock MutationSite.seatAssignment = true ∧
    insideLock MutationSite.evictionSweep = false ∧
    insideLock MutationSite.roomCreation = false ∧
    insideLock MutationSite.touchLastActive = false ∧
    insideLock MutationSite.moveWrite = false ∧
    insideLock MutationSite.playAgainReset = false := by
  decide

/-- C5 counterexample: on a registry holding one stale room, the sweep
deletes one room but the call evaluates to `None`, not to the count of
rooms removed. -/
theorem sweep_return_counterexample :
    removedCount [("r2", newRoom 0)] 301 300 = 1 ∧
    ¬ cleanup_old_rooms_return [("r2", newRoom 0)] 301 300 =
        some (removedCount [("r2", newRoom 0)] 301 300) := by
  constructor
  · decide
  · simp [cleanup_old_rooms_return]

/-- C5 amended: the sweep deletes the stale rooms but returns no value
at all (Python `None`); the number of rooms it removed is not returned
to the caller. -/
theorem sweep_returns_none (games : Registry) (now ttl : Int) :
    cleanup_old_rooms_return games now ttl = none :=
  rfl

/-- C7: the Play Again reset clears both recorded moves and changes
nothing else in the room: occupancy and `last_active` are preserved, the
remembered seat identity of every caller is untouched, and a room at
occupancy 2 is still at occupancy 2. -/
theorem playAgain_clears_only_moves (r : Room) :
    (playAgain r).player1_move = none ∧
    (playAgain r).player2_move = none ∧
    (playAgain r).count = r.count ∧
    (playAgain r).last_active = r.last_active ∧
    (∀ st : AppState, ∀ name : String,
      (playAgainClick st name).session_role = st.session_role) ∧
    (r.count = 2 → (playAgain r).count = 2) := by
  refine ⟨rfl, rfl, rfl, rfl, fun st name => ?_, fun h => h⟩
  cases hlook : lookupRoom st.games name with
  | none => simp [playAgainClick, hlook]
  | some r2 => simp [playAgainClick, hlook]

/-- Witness for C7: a full concrete room at occupancy 2 stays at
occupancy 2 after the reset. -/
theorem playAgain_clears_only_moves_witness :
    (playAgain ⟨some Move.rock, some Move.scissors, 2, 9⟩).count = 2 :=
  (playAgain_clears_only_moves ⟨some Move.rock, some Move.scissors, 2, 9⟩).2.2.2.2.2 rfl

/-- Membership in the swept registry, unfolded once and for all. -/
theorem mem_cleanup_iff (games : Registry) (now ttl : Int)
    (p : String × Room) :
    p ∈ cleanup_old_rooms games now ttl ↔
      p ∈ games ∧ ¬ now - p.2.last_active > ttl := by
  simp [cleanup_old_rooms, List.mem_filter]

/-- C4: a sweep removes a room exactly when `now - last_active > ttl`
holds strictly; a room kept alive through `lastActive = T` survives
every sweep at `now ≤ T + ttl`; concretely, a room last active at 0 is
removed by a sweep at 301 with ttl 300 but kept by one at 299. -/
theorem sweep_keeps_iff_fresh :
    (∀ (games : Registry) (now ttl : Int) (p : String × Room),
        p ∈ cleanup_old_rooms games now ttl ↔
          p ∈ games ∧ ¬ now - p.2.last_active > ttl) ∧
    (∀ (games : Registry) (now ttl : Int) (p : String × Room),
        p ∈ games → now ≤ p.2.last_active + ttl →
          p ∈ cleanup_old_rooms games now ttl) ∧
    cleanup_old_rooms [("r2", newRoom 0)] 301 300 = [] ∧
    cleanup_old_rooms [("r2", newRoom 0)] 299 300 = [("r2", newRoom 0)] := by
  refine ⟨mem_cleanup_iff, fun games now ttl p hp hle => ?_, ?_, ?_⟩
  · exact (mem_cleanup_iff games now ttl p).mpr ⟨hp, by omega⟩
  · decide
  · decide

/-- Witness for C4: a recently touched concrete room survives a sweep. -/
theorem sweep_keeps_iff_fresh_witness :
    ("r1", newRoom 5) ∈ cleanup_old_rooms [("r1", newRoom 5)] 10 300 :=
  sweep_keeps_iff_fresh.2.1 [("r1", newRoom 5)] 10 300 ("r1", newRoom 5)
    (by simp) (by decide)

/-- No single room operation pushes the count above 2. -/
theorem stepRoom_count_le_two (r : Room) (op : RoomOp) (h : r.count ≤ 2) :
    (stepRoom r op).count ≤ 2 := by
  cases op with
  | join =>
      by_cases h0 : r.count = 0
      · simp [stepRoom, assign, h0]
      · by_cases h1 : r.count = 1
        · simp [stepRoom, assign, h0, h1]
        · simpa [stepRoom, assign, h0, h1] using h
  | submit s m =>
      cases s <;> simp only [stepRoom, submitMove] <;> split <;> simpa using h
  | reset => simpa [stepRoom, playAgain] using h
  | touch t => simpa [stepRoom] using h

/-- No single room operation decreases the count. -/
theorem stepRoom_count_mono (r : Room) (op : RoomOp) :
    r.count ≤ (stepRoom r op).count := by
  cases op with
  | join =>
      by_cases h0 : r.count = 0
      · simp [stepRoom, assign, h0]
      · by_cases h1 : r.count = 1
        · simp [stepRoom, assign, h0, h1]
        · simp [stepRoom, assign, h0, h1]
  | submit s m =>
      cases s <;> simp only [stepRoom, submitMove] <;> split <;> simp
  | reset => simp [stepRoom, playAgain]
  | touch t => simp [stepRoom]

/-- The count bound is preserved along any operation sequence. -/
theorem runOps_count_le_two (r : Room) (h : r.count ≤ 2)
    (ops : List RoomOp) : (runOps r ops).count ≤ 2 := by
  induction ops generalizing r with
  | nil => exact h
  | cons op rest ih => exact ih (stepRoom r op) (stepRoom_count_le_two r op h)

/-- C8: along every operation sequence from a freshly created room the
occupancy count stays at most 2; no room operation ever decreases it;
and a sweep only deletes whole rooms — the surviving registry is a
sublist of the old one, every kept room unchanged. -/
theorem occupancy_bounded_and_monotone :
    (∀ (t : Int) (ops : List RoomOp), (runOps (newRoom t) ops).count ≤ 2) ∧
    (∀ (r : Room) (op : RoomOp), r.count ≤ (stepRoom r op).count) ∧
    (∀ (games : Registry) (now ttl : Int),
      List.Sublist (cleanup_old_rooms games now ttl) games) :=
  ⟨fun t ops => runOps_count_le_two (newRoom t) (by simp [newRoom]) ops,
   stepRoom_count_mono,
   fun games now ttl => List.filter_sublist games⟩

/-- Writing a room then reading it back by the same name yields that
room. -/
theorem lookupRoom_setRoom (games : Registry) (name : String) (r : Room) :
    lookupRoom (setRoom games name r) name = some r := by
  induction games with
  | nil => simp [setRoom, lookupRoom]
  | cons p rest ih =>
      by_cases hp : p.1 = name
      · simp [setRoom, hp, lookupRoom]
      · simpa [setRoom, hp, lookupRoom] using ih

/-- C10: a caller with a remembered seat who names an absent room gets
the room re-created fresh (occupancy 0, both moves absent) while seat
assignment is skipped: the remembered seat identity survives, and the
re-created room counts nobody. -/
theorem seated_caller_recreates_room (st : AppState) (name : String)
    (now : Int) (s : Seat) (hrole : st.session_role = some s)
    (habs : lookupRoom st.games name = none) :
    (pageRun st name now).session_role = some s ∧
    lookupRoom (pageRun st name now).games name = some (newRoom now) ∧
    (newRoom now).count = 0 ∧
    (newRoom now).player1_move = none ∧
    (newRoom now).player2_move = none := by
  obtain ⟨role, g⟩ := st
  simp only at hrole habs
  subst hrole
  refine ⟨by simp [pageRun], ?_, rfl, rfl, rfl⟩
  simp [pageRun, ensureRoom, habs, touchRoom, lookupRoom_setRoom, newRoom]

/-- Witness for C10: a Player 1 caller on an empty registry. -/
theorem seated_caller_recreates_room_witness :
    (pageRun (AppState.mk (some Seat.player1) []) "r1" 7).session_role =
      some Seat.player1 ∧
    lookupRoom (pageRun (AppState.mk (some Seat.player1) []) "r1" 7).games
      "r1" = some (newRoom 7) :=
  ⟨(seated_caller_recreates_room (AppState.mk (some Seat.player1) [])
      "r1" 7 Seat.player1 rfl rfl).1,
   (seated_caller_recreates_room (AppState.mk (some Seat.player1) [])
      "r1" 7 Seat.player1 rfl rfl).2.1⟩

end GameApp
